import Mathlib

/-!
Verification of the event-stream acquisition and reconciliation harness
(`backend/fulltest.py`, `backend/test_debug.py`, `backend/test_llm_api.py`)
against its natural-language specification.

The Python scripts are shallowly embedded: each relevant Python function or
inline code block becomes a total Lean function over an explicit data model.
Python dictionary access with `.get(key, default)` is modelled with `Option`
(and, where the distinction between an absent key and a present-but-null value
matters, with the three-valued `Field` type below).  Machine integers do not
overflow in any of the modelled code paths, so `Nat` is used directly.
-/

namespace Harness

/-- A Python dictionary field that distinguishes an absent key, a key present
with value `None`, and a key present with a proper value.  `e.get(k, d)`
returns `d` only when the key is absent; a present `None` is returned as-is. -/
inductive Field (α : Type) where
  | absent : Field α
  | null : Field α
  | val : α → Field α
deriving DecidableEq, Repr

/-- Result of `e.get(key, default)` for a string-valued key with a string
default, as `Option String`: `none` models Python `None`. -/
def Field.pyGet (default : String) : Field String → Option String
  | .absent => some default
  | .null => none
  | .val s => some s

/-- The `payload_json` attribute of a REST-fetched event as the harness sees it
after `payload = json.loads(pjson) if isinstance(pjson, str) else pjson` under
`try/except`: the key may be absent (default string is an empty JSON object),
hold a string that parses to an object, hold a string that fails to parse
(`except` yields an empty object), or already hold a non-string object. -/
inductive PayloadJson where
  | absent : PayloadJson
  | strGood : List (String × String) → PayloadJson
  | strBad : PayloadJson
  | obj : List (String × String) → PayloadJson
deriving DecidableEq, Repr

/-- `fulltest.py` lines 110-114: parse `payload_json` with a `try/except`
that replaces any parse failure (and the absent-key default) by an empty
object. -/
def parsePayload : PayloadJson → List (String × String)
  | .absent => []
  | .strGood o => o
  | .strBad => []
  | .obj o => o

/-- One Game Event as the harness reads it: the server-assigned sequence
number (`seq`, absent on some live-stream payloads), the event type string,
the nullable acting participant (`actor_user_id`), and the payload. -/
structure GameEvent where
  seq : Option Nat
  event_type : String
  actor_user_id : Field String
  payload_json : PayloadJson
deriving DecidableEq, Repr

/-- A default Game Event, the `{}` fallback of `msg.get('payload', {})`. -/
def emptyEvent : GameEvent :=
  { seq := none, event_type := "?", actor_user_id := .absent, payload_json := .absent }

instance : Inhabited GameEvent := ⟨emptyEvent⟩

/-- Adjacent comparison on the optional sequence numbers of two events;
events lacking a sequence number impose no constraint. -/
def seqLe (a b : GameEvent) : Bool :=
  match a.seq, b.seq with
  | some x, some y => x ≤ y
  | _, _ => true

/-- The list is ascending in sequence number (adjacent-pair formulation;
`≤` is transitive so this agrees with the pairwise reading). -/
def sortedBySeq : List GameEvent → Bool
  | [] => true
  | [_] => true
  | a :: b :: rest => seqLe a b && sortedBySeq (b :: rest)

/-! ### Reconciler (`fulltest.py` lines 90-103)

The REST historical fetch is wrapped in `try/except`; on any exception the
script sets `api_events = []`.  Line 103 then reads
`events = api_events if api_events else collected_events`. -/

/-- `fulltest.py` lines 90-95: the fetch outcome.  `none` is the `except`
branch (network error, non-success status raised by `urlopen`, or malformed
body raised by `json.loads`), which sets `api_events = []`. -/
def fetchResultEvents : Option (List GameEvent) → List GameEvent
  | some l => l
  | none => []

/-- `fulltest.py` line 103: `events = api_events if api_events else
collected_events` — the Reconciler.  A non-empty REST list is taken verbatim;
an empty or failed fetch falls back to the live Collected Buffer verbatim. -/
def events (fetch : Option (List GameEvent)) (collected_events : List GameEvent) :
    List GameEvent :=
  let api_events := fetchResultEvents fetch
  if api_events.isEmpty then collected_events else api_events

/-- Helper for building concrete events in examples. -/
def mkEv (seq : Option Nat) (etype : String) : GameEvent :=
  { seq := seq, event_type := etype, actor_user_id := .val "bot", payload_json := .absent }

/-! ### Event Collector (`fulltest.py` lines 45-55)

`on_message` parses the raw frame (`json.loads` under `try/except: pass`),
and appends `msg.get('payload', {})` to `collected_events` exactly when
`msg.get('type') == 'event'`.  All other frames, malformed frames, and frames
that are not JSON objects leave the buffer untouched. -/

/-- One raw WebSocket frame after the `json.loads` attempt: `bad` is a frame
that failed to parse or is not a JSON object (any exception inside the handler
is swallowed by the bare `except: pass`); `msg` carries the `type` key.
value (absent key modelled as `none`) and the optional `payload`. -/
inductive Frame where
  | bad : Frame
  | msg : Option String → Option GameEvent → Frame
deriving DecidableEq, Repr

/-- `fulltest.py` lines 45-55: one step of the message handler on the
Collected Buffer. -/
def on_message (collected_events : List GameEvent) (f : Frame) : List GameEvent :=
  match f with
  | .bad => collected_events
  | .msg t p => if t = some "event" then collected_events ++ [p.getD emptyEvent] else collected_events

/-- The Collected Buffer after the handler has consumed a whole frame
sequence, starting from the empty buffer of line 41. -/
def collect (frames : List Frame) : List GameEvent :=
  frames.foldl on_message []

/-- Whether a frame is an `event`-kind envelope. -/
def isEventFrame : Frame → Bool
  | .msg t _ => t = some "event"
  | .bad => false

/-- The Game Event an `event`-kind envelope contributes to the buffer
(`msg.get('payload', {})`), and `none` for every other frame. -/
def eventPayload : Frame → Option GameEvent
  | .msg t p => if t = some "event" then some (p.getD emptyEvent) else none
  | .bad => none

/-! ### Transport sends (`fulltest.py` lines 57-66) -/

/-- A WebSocket envelope, tagged by kind. -/
inductive Envelope where
  | subscribe : String → Nat → Envelope
  | subscribed : Envelope
  | command : String → String → Envelope
  | eventEnv : GameEvent → Envelope
  | other : String → Envelope
deriving DecidableEq, Repr

/-- `fulltest.py` lines 57-66: `on_open` sends the `subscribe` envelope,
sleeps 0.5s, and sends the `start_game` `command` envelope.  The handler reads
no received-message state (the body consults neither `collected_events` nor
any acknowledgment); the `received` parameter records the envelopes the server
has delivered so far, so that this independence is expressible. -/
def on_open (room_id : String) (_received : List Envelope) : List Envelope :=
  [.subscribe room_id 0, .command room_id "start_game"]

/-- Whether an envelope is a `command`. -/
def isCommand : Envelope → Bool
  | .command _ _ => true
  | _ => false

/-- Whether an envelope is a `subscribed` acknowledgment. -/
def isSubscribedAck : Envelope → Bool
  | .subscribed => true
  | _ => false

/-! ### Completion Detector / collection loop (`fulltest.py` lines 74-87)

The loop: `while time.time() - start < 60: sleep(2); ...; if chat_count >= 4:
sleep(5); break`.  Time is modelled discretely: `elapsed` advances by the 2s
poll interval; a poll at elapsed time `t` sees every event that arrived at a
time `≤ t`.  The hard budget 60, the poll interval 2, the quorum 4 and the
grace sleep 5 are the script's literal constants. -/

/-- `chat_count` at elapsed time `t`: the number of `public.chat` events whose
arrival times (`chatTimes`) are `≤ t` (line 79). -/
def chat_count (chatTimes : List Nat) (t : Nat) : Nat :=
  (chatTimes.filter (fun a => a ≤ t)).length

/-- Line 82's stop condition: `chat_count >= 4` at elapsed time `t`. -/
def quorumStop (chatTimes : List Nat) (t : Nat) : Bool :=
  4 ≤ chat_count chatTimes t

/-- The first polled elapsed time at which the stop condition holds, or `none`
when the loop runs out its 60s budget first.  Polls happen at elapsed times
2, 4, …; the loop guard `elapsed < 60` is checked before each sleep. -/
def firstStop (stop : Nat → Bool) (elapsed : Nat) : Option Nat :=
  if elapsed < 60 then
    if stop (elapsed + 2) then some (elapsed + 2)
    else firstStop stop (elapsed + 2)
  else none
termination_by 60 - elapsed
decreasing_by omega

/-- The elapsed time at which the collection loop exits: on a quorum hit at
poll time `t` it sleeps the 5s grace and breaks at `t + 5` (line 83); with no
quorum hit it leaves through the `while` guard at the 60s budget. -/
def loopExit (stop : Nat → Bool) (elapsed : Nat) : Nat :=
  if elapsed < 60 then
    if stop (elapsed + 2) then elapsed + 2 + 5
    else loopExit stop (elapsed + 2)
  else elapsed
termination_by 60 - elapsed
decreasing_by omega

/-! ### Result building (`fulltest.py` lines 105-155)

The display loop reads, for every event, `etype`, `actor`, `seq` and the
parsed payload, and collects `public.chat` lines into `chat_messages`; the
script then writes the result record of lines 144-151.  The per-event actor
read is `e.get('actor_user_id', '?')[:20]`: Python's slice raises `TypeError`
when the value is `None` (the `'?'` default fires only for an absent key),
and no handler catches it, so the whole run aborts.  That fallibility is the
`Except` error channel. -/

/-- Python `v[:20]` on the result of `e.get('actor_user_id', '?')`: slicing a
string truncates it; slicing `None` raises `TypeError`. -/
def pySlice20 : Option String → Except String String
  | some s => .ok (s.take 20)
  | none => .error "TypeError: NoneType object is not subscriptable"

/-- Python `str(payload)` as used for the `message` fallback on line 117; the
exact rendering is irrelevant to every property proved here, only that it is a
total function of the payload. -/
def pyStr (o : List (String × String)) : String :=
  String.join (o.map (fun kv => kv.fst ++ kv.snd))

/-- One saved chat message, an element of the record's `messages` list
(line 118). -/
structure ChatMsg where
  seq : Option Nat
  actor : String
  message : String
deriving DecidableEq, Repr

/-- `fulltest.py` lines 106-118, one iteration of the display loop: computes
the actor (fallible), parses the payload, and yields a chat line exactly for
`public.chat` events. -/
def chatLine (e : GameEvent) : Except String (Option ChatMsg) := do
  let actor ← pySlice20 (e.actor_user_id.pyGet "?")
  let payload := parsePayload e.payload_json
  if e.event_type = "public.chat" then
    let msg := ((payload.lookup "message").getD (pyStr payload))
    .ok (some { seq := e.seq, actor := actor, message := msg })
  else
    .ok none

/-- The whole display loop: `chat_messages` accumulated over the reconciled
event list, aborting at the first per-event `TypeError`. -/
def chat_messages : List GameEvent → Except String (List ChatMsg)
  | [] => .ok []
  | e :: rest => do
    let line ← chatLine e
    let tail ← chat_messages rest
    match line with
    | some m => .ok (m :: tail)
    | none => .ok tail

/-- The persisted result record of lines 144-151; these six fields are the
whole record. -/
structure ResultRecord where
  provider : String
  room_id : String
  total_events : Nat
  chat_count : Nat
  elapsed_seconds : Nat
  messages : List ChatMsg
deriving DecidableEq, Repr

/-- `fulltest.py` lines 105-151: run the display loop over the reconciled
events and assemble the result record. -/
def buildResult (provider room_id : String) (elapsed : Nat) (evs : List GameEvent) :
    Except String ResultRecord := do
  let msgs ← chat_messages evs
  .ok { provider := provider, room_id := room_id, total_events := evs.length,
        chat_count := msgs.length, elapsed_seconds := elapsed, messages := msgs }

/-! ### LLM provider helpers (`test_llm_api.py` lines 58-173)

`test_gemini` and `test_deepseek` wrap one HTTP call in
`try / except urllib.error.HTTPError / except Exception`; everything inside
the `try` — including the body decoding and field extraction — is covered by
the final handler.  The `HTTPError` handler itself, however, runs
`e.read().decode('utf-8')` (lines 101 and 159) with no enclosing `try`: an
exception raised there — a non-UTF-8 error body, a failed read — is raised
inside an `except` clause and is not caught by the following
`except Exception` clause, so it propagates to the caller.  The three
`HttpOutcome` constructors are the three branches, with the error-body read
outcome modelled by `ErrBody`. -/

/-- A `parts` element of a Gemini candidate (`p.get("text", "")`). -/
structure GenPart where
  text : Option String
deriving DecidableEq, Repr

/-- A Gemini `candidates` element; `content` and its `parts` default to
empty (`.get("content", {}).get("parts", [])`). -/
structure GenCandidate where
  content : Option (List GenPart)
deriving DecidableEq, Repr

/-- A decoded Gemini response body (an absent `candidates` key and an empty
list behave identically in the source, so both are `[]`). -/
structure GeminiBody where
  candidates : List GenCandidate
  usageMetadata : Option (List (String × Nat))
deriving DecidableEq, Repr

/-- `test_llm_api.py` lines 84-88: extract the concatenated candidate text. -/
def geminiText (b : GeminiBody) : String :=
  match b.candidates with
  | [] => ""
  | c :: _ => String.join ((c.content.getD []).map (fun p => p.text.getD ""))

/-- A DeepSeek `choices[i].message` object. -/
structure DSMessage where
  content : Option String
deriving DecidableEq, Repr

/-- A DeepSeek `choices` element (`.get("message", {})`). -/
structure DSChoice where
  message : Option DSMessage
deriving DecidableEq, Repr

/-- A decoded DeepSeek response body. -/
structure DeepseekBody where
  choices : List DSChoice
  usage : Option (List (String × Nat))
deriving DecidableEq, Repr

/-- `test_llm_api.py` lines 143-146: extract the first choice's content. -/
def deepseekText (b : DeepseekBody) : String :=
  match b.choices with
  | [] => ""
  | c :: _ =>
    match c.message with
    | some m => m.content.getD ""
    | none => ""

/-- What `error_body = e.read().decode('utf-8') if e.fp else str(e)` can do
inside the `except urllib.error.HTTPError` handler (`test_llm_api.py` lines
101 and 159): with no body stream (`e.fp` is `None`) it is `str(e)`; with a
stream, the read-plus-decode either yields a string or itself raises (for
example `UnicodeDecodeError` on a non-UTF-8 body, or a read failure) — and
that raise happens inside the `except` clause, outside any `try`, so the
following `except Exception` clause does not catch it. -/
inductive ErrBody where
  | noStream : String → ErrBody
  | stream : String → ErrBody
  | streamFail : String → ErrBody
deriving DecidableEq, Repr

/-- Outcome of the one `urllib.request.urlopen` call plus body decode:
success with a decoded body, an `urllib.error.HTTPError` with status code and
an error-body read outcome (itself fallible, see `ErrBody`), or any other
exception with its message. -/
inductive HttpOutcome (β : Type) where
  | ok : β → HttpOutcome β
  | httpError : Nat → ErrBody → HttpOutcome β
  | otherError : String → HttpOutcome β
deriving DecidableEq, Repr

/-- The dictionary either helper returns.  Keys present only on some branches
(`text`, `tokens`, `error`) are `Option` fields defaulting to absent. -/
structure LLMResult where
  success : Bool
  latency : Nat
  raw_status : Nat
  text : Option String := none
  tokens : Option (List (String × Nat)) := none
  error : Option String := none
deriving DecidableEq, Repr

/-- `test_llm_api.py` lines 58-115 (`test_gemini`), as a function of the HTTP
outcome and the measured latency.  The `Except` error channel is the one
uncaught path: an exception raised by `e.read().decode('utf-8')` on line 101
inside the `HTTPError` handler propagates to the caller. -/
def test_gemini (outcome : HttpOutcome GeminiBody) (latency : Nat) :
    Except String LLMResult :=
  match outcome with
  | .ok body =>
    .ok { success := true, text := some (geminiText body),
          tokens := some (body.usageMetadata.getD []), latency := latency, raw_status := 200 }
  | .httpError code errBody =>
    match errBody with
    | .noStream estr =>
      .ok { success := false, error := some ("HTTP " ++ toString code ++ ": " ++ estr.take 500),
            latency := latency, raw_status := code }
    | .stream s =>
      .ok { success := false, error := some ("HTTP " ++ toString code ++ ": " ++ s.take 500),
            latency := latency, raw_status := code }
    | .streamFail exc => .error exc
  | .otherError msg =>
    .ok { success := false, error := some msg, latency := latency, raw_status := 0 }

/-- `test_llm_api.py` lines 117-173 (`test_deepseek`); the same shape,
including the uncaught read/decode path at line 159. -/
def test_deepseek (outcome : HttpOutcome DeepseekBody) (latency : Nat) :
    Except String LLMResult :=
  match outcome with
  | .ok body =>
    .ok { success := true, text := some (deepseekText body),
          tokens := some (body.usage.getD []), latency := latency, raw_status := 200 }
  | .httpError code errBody =>
    match errBody with
    | .noStream estr =>
      .ok { success := false, error := some ("HTTP " ++ toString code ++ ": " ++ estr.take 500),
            latency := latency, raw_status := code }
    | .stream s =>
      .ok { success := false, error := some ("HTTP " ++ toString code ++ ": " ++ s.take 500),
            latency := latency, raw_status := code }
    | .streamFail exc => .error exc
  | .otherError msg =>
    .ok { success := false, error := some msg, latency := latency, raw_status := 0 }

end Harness

namespace Harness

/-- C1: a successful REST fetch with a non-empty event list is returned
verbatim by the Reconciler, whatever the Collected Buffer holds; since the
server contract delivers the historical log already ascending in sequence
number (the hypothesis `hs`), the returned list is ascending.  The two sources
are never blended: the buffer does not occur in the result. -/
theorem reconcile_rest_success (api buffer : List GameEvent)
    (hne : api ≠ []) (hs : sortedBySeq api = true) :
    events (some api) buffer = api ∧ sortedBySeq (events (some api) buffer) = true := by
  cases api with
  | nil => exact absurd rfl hne
  | cons a l => exact ⟨rfl, hs⟩

/-- Witness for `reconcile_rest_success` at a concrete sorted two-event fetch
and a non-empty buffer. -/
theorem reconcile_rest_success_witness :
    events (some [mkEv (some 1) "a", mkEv (some 2) "b"]) [mkEv (some 9) "z"] =
        [mkEv (some 1) "a", mkEv (some 2) "b"] ∧
      sortedBySeq (events (some [mkEv (some 1) "a", mkEv (some 2) "b"])
        [mkEv (some 9) "z"]) = true :=
  reconcile_rest_success [mkEv (some 1) "a", mkEv (some 2) "b"] [mkEv (some 9) "z"]
    (by decide) (by decide)

/-- C2 counterexample: with the REST fetch failed and a Collected Buffer whose
two events arrive with sequence numbers 2 then 1, the Reconciler returns the
buffer verbatim, which is not ascending in sequence number — line 103 performs
no sort on the fallback path. -/
theorem reconcile_failure_unsorted :
    events none [mkEv (some 2) "a", mkEv (some 1) "b"] =
        [mkEv (some 2) "a", mkEv (some 1) "b"] ∧
      sortedBySeq (events none [mkEv (some 2) "a", mkEv (some 1) "b"]) = false := by
  decide

/-- C2 amended: on a failed (or empty) REST fetch, the Reconciler returns the
Collected Buffer exactly as collected — original arrival order for every
event, with no sorting by sequence number. -/
theorem reconcile_failure_returns_buffer (buffer : List GameEvent) :
    events none buffer = buffer ∧ events (some []) buffer = buffer :=
  ⟨rfl, rfl⟩

/-- C3 counterexample: the live-only fallback does not deduplicate — a buffer
holding two events with the same sequence number 1 is returned with both
occurrences, so the returned log does not contain one event per sequence
number. -/
theorem live_fallback_keeps_duplicates :
    ((events none [mkEv (some 1) "a", mkEv (some 1) "b"]).countP
      (fun e => e.seq == some 1)) = 2 := by
  decide

/-- C3 amended: the live-only fallback preserves per-sequence-number
multiplicities exactly: every occurrence in the Collected Buffer, duplicate
deliveries included, appears in the returned log. -/
theorem live_fallback_multiplicity (buffer : List GameEvent) (s : Option Nat) :
    (events none buffer).countP (fun e => e.seq == s) =
      buffer.countP (fun e => e.seq == s) :=
  rfl

/-- The buffer built by folding `on_message` over a frame sequence is the
starting buffer followed by the payloads of the `event`-kind frames, in
arrival order. -/
theorem foldl_on_message (frames : List Frame) (acc : List GameEvent) :
    frames.foldl on_message acc = acc ++ frames.filterMap eventPayload := by
  induction frames generalizing acc with
  | nil => simp
  | cons f rest ih =>
    cases f with
    | bad => simp [on_message, eventPayload, ih]
    | msg t p =>
      by_cases h : t = some "event" <;>
        simp [on_message, eventPayload, h, ih]

/-- The number of `event`-kind frames equals the length of their extracted
payload list. -/
theorem length_filterMap_eventPayload (frames : List Frame) :
    (frames.filterMap eventPayload).length = frames.countP isEventFrame := by
  induction frames with
  | nil => rfl
  | cons f rest ih =>
    cases f with
    | bad => simpa [eventPayload, isEventFrame, List.countP_cons] using ih
    | msg t p =>
      by_cases h : t = some "event" <;>
        simp [eventPayload, isEventFrame, List.countP_cons, h, ih]

/-- C4: after any sequence of frames is delivered to the message handler, the
Collected Buffer is exactly the `event`-kind envelopes' payloads in arrival
order (no drops, no reordering, no other envelope kinds mixed in), and its
length is the number of `event`-kind envelopes received. -/
theorem collector_buffer_exact (frames : List Frame) :
    collect frames = frames.filterMap eventPayload ∧
      (collect frames).length = frames.countP isEventFrame := by
  refine ⟨?_, ?_⟩
  · simpa using foldl_on_message frames []
  · rw [collect, foldl_on_message frames []]
    simpa using length_filterMap_eventPayload frames

/-- With exactly four quorum events at strictly increasing times, the quorum
condition at elapsed time `t` is equivalent to `t4 ≤ t`. -/
theorem quorumStop_eq_threshold (t1 t2 t3 t4 : Nat)
    (h12 : t1 < t2) (h23 : t2 < t3) (h34 : t3 < t4) (t : Nat) :
    quorumStop [t1, t2, t3, t4] t = decide (t4 ≤ t) := by
  have hiff : (4 ≤ chat_count [t1, t2, t3, t4] t) ↔ t4 ≤ t := by
    simp only [chat_count, List.filter]
    by_cases h1 : t1 ≤ t <;> by_cases h2 : t2 ≤ t <;>
      by_cases h3 : t3 ≤ t <;> by_cases h4 : t4 ≤ t <;>
      simp [h1, h2, h3, h4] <;> omega
  simp only [quorumStop]
  exact decide_eq_decide.mpr hiff

/-- If a threshold-`c` stop condition is polled from an even elapsed time
below `c`, with `c` inside the 60s budget, the loop detects it at the first
poll at or after `c`, which is at most `c + 1`. -/
theorem firstStop_threshold (c : Nat) (hc : c ≤ 60) :
    ∀ n elapsed, 60 - elapsed ≤ n → elapsed % 2 = 0 → elapsed < c →
      ∃ t, firstStop (fun t => decide (c ≤ t)) elapsed = some t ∧ c ≤ t ∧ t ≤ c + 1 := by
  intro n
  induction n with
  | zero =>
    intro e h he hec
    exact absurd hec (by omega)
  | succ n ih =>
    intro e h he hec
    have he60 : e < 60 := lt_of_lt_of_le hec hc
    rw [firstStop]
    rw [if_pos he60]
    by_cases hstop : c ≤ e + 2
    · rw [if_pos (by simpa using hstop)]
      exact ⟨e + 2, rfl, hstop, by omega⟩
    · rw [if_neg (by simpa using hstop)]
      exact ih (e + 2) (by omega) (by omega) (by omega)

/-- A stop condition that never fires leaves the loop to exit through the
`while` guard at the 60s budget exactly (stepping by the 2s poll interval from
an even elapsed time). -/
theorem loopExit_never (stop : Nat → Bool) (hs : ∀ t, stop t = false) :
    ∀ n elapsed, 60 - elapsed ≤ n → elapsed % 2 = 0 → elapsed ≤ 60 →
      loopExit stop elapsed = 60 := by
  intro n
  induction n with
  | zero =>
    intro e h he he60
    rw [loopExit]
    rw [if_neg (by omega)]
    omega
  | succ n ih =>
    intro e h he he60
    rw [loopExit]
    by_cases hlt : e < 60
    · rw [if_pos hlt, if_neg (by simp [hs])]
      exact ih (e + 2) (by omega) (by omega) (by omega)
    · rw [if_neg hlt]
      omega

/-- C5: with exactly four events of the quorum type (`public.chat`) arriving
at times `t1 < t2 < t3 < t4` inside the 60s budget, the loop's stop condition
is first detected at a polled time `t` with `t4 ≤ t < t4 + 5` (the 5s grace
sleep), and the quorum condition is false at every time before `t4`. -/
theorem quorum_stop_window (t1 t2 t3 t4 : Nat)
    (h12 : t1 < t2) (h23 : t2 < t3) (h34 : t3 < t4) (h60 : t4 ≤ 60) :
    (∃ t, firstStop (quorumStop [t1, t2, t3, t4]) 0 = some t ∧ t4 ≤ t ∧ t < t4 + 5) ∧
      ∀ s, s < t4 → quorumStop [t1, t2, t3, t4] s = false := by
  have hq : quorumStop [t1, t2, t3, t4] = fun t => decide (t4 ≤ t) :=
    funext (quorumStop_eq_threshold t1 t2 t3 t4 h12 h23 h34)
  constructor
  · rw [hq]
    obtain ⟨t, ht, hct, htc⟩ :=
      firstStop_threshold t4 h60 60 0 (by omega) (by omega) (by omega)
    exact ⟨t, ht, hct, by omega⟩
  · intro s hs
    rw [hq]
    simpa using by omega

/-- Witness for `quorum_stop_window` with the four chats at times 1, 2, 3, 4:
the stop condition is first detected at poll time 4. -/
theorem quorum_stop_window_witness :
    (∃ t, firstStop (quorumStop [1, 2, 3, 4]) 0 = some t ∧ 4 ≤ t ∧ t < 4 + 5) ∧
      ∀ s, s < 4 → quorumStop [1, 2, 3, 4] s = false :=
  quorum_stop_window 1 2 3 4 (by decide) (by decide) (by decide) (by decide)

/-- C6: a stream that never reaches the quorum (fewer than four chat events in
total, and the loop has no terminal-event exit at all) leaves the collection
loop through its `while` guard at exactly the 60s hard budget; `loopExit` is a
total function, so this exit is a value, not an error. -/
theorem timeout_exit (chatTimes : List Nat) (h : chatTimes.length < 4) :
    loopExit (quorumStop chatTimes) 0 = 60 := by
  have hnever : ∀ t, quorumStop chatTimes t = false := by
    intro t
    have hle : (chatTimes.filter (fun a => a ≤ t)).length ≤ chatTimes.length :=
      List.length_filter_le _ _
    simp only [quorumStop, chat_count, decide_eq_false_iff_not]
    omega
  exact loopExit_never _ hnever 60 0 (by omega) (by omega) (by omega)

/-- Witness for `timeout_exit`: with no chat events at all, the loop exits at
elapsed time 60. -/
theorem timeout_exit_witness : loopExit (quorumStop []) 0 = 60 :=
  timeout_exit [] (by decide)

/-- C7 counterexample: in a run in which the server has delivered no envelopes
at all — in particular no `subscribed` acknowledgment — `on_open` still sends
the `start_game` command (after only a fixed 0.5s sleep), and nothing in the
handler prevents or flags it. -/
theorem command_sent_without_ack :
    Envelope.command "room1" "start_game" ∈ on_open "room1" [] ∧
      ([] : List Envelope).countP isSubscribedAck = 0 := by
  exact ⟨by simp [on_open], rfl⟩

/-- C7 amended: the envelopes `on_open` sends are a fixed list — `subscribe`
followed by the `start_game` command — independent of every envelope received
so far; the command is sent whether or not a `subscribed` acknowledgment has
arrived, with no prevention or flagging. -/
theorem on_open_sends_fixed (room : String) (received : List Envelope) :
    on_open room received = [.subscribe room 0, .command room "start_game"] :=
  rfl

/-- C8 counterexample: the result record built after a successful REST fetch
of one chat event is identical to the record built from the live-only fallback
on that same event — the record carries no provenance marker, so a best-effort
result is indistinguishable from an authoritative one. -/
theorem no_provenance_marker :
    buildResult "gemini" "room1" 30 (events (some [mkEv (some 1) "public.chat"]) []) =
      buildResult "gemini" "room1" 30 (events none [mkEv (some 1) "public.chat"]) :=
  rfl

/-- C8 amended: whenever the authoritative fetch and the live buffer hold the
same events, the emitted result records are equal: the record (its six fields
`provider`, `room_id`, `total_events`, `chat_count`, `elapsed_seconds`,
`messages`) encodes no provenance; only a console print distinguishes the
fallback. -/
theorem fallback_result_unlabeled (p r : String) (el : Nat)
    (evs buffer : List GameEvent) (h : evs ≠ []) :
    buildResult p r el (events (some evs) buffer) =
      buildResult p r el (events none evs) := by
  cases evs with
  | nil => exact absurd rfl h
  | cons a l => rfl

/-- Witness for `fallback_result_unlabeled` at one concrete event list and
buffer. -/
theorem fallback_result_unlabeled_witness :
    buildResult "g" "r" 1 (events (some [mkEv (some 1) "x"]) [mkEv (some 2) "y"]) =
      buildResult "g" "r" 1 (events none [mkEv (some 1) "x"]) :=
  fallback_result_unlabeled "g" "r" 1 [mkEv (some 1) "x"] [mkEv (some 2) "y"] (by decide)

/-- C9: evaluating the result-building step on an event whose
`actor_user_id` is present but null: `e.get('actor_user_id', '?')` returns
`None` (the `'?'` default applies only to an absent key) and the slice
`[:20]` raises `TypeError`, so the per-event loop aborts instead of producing
a record. -/
theorem null_actor_aborts :
    buildResult "gemini" "room1" 42
        [{ seq := some 1, event_type := "game.started", actor_user_id := .null,
           payload_json := .absent }] =
      .error "TypeError: NoneType object is not subscriptable" :=
  rfl

/-- C10 counterexample: an HTTP error whose body stream fails to read or
decode as UTF-8 makes the exception raised at `test_llm_api.py` line 101
(resp. 159) propagate to the caller — no record with a `success` flag is
returned — refuting the claimed totality of both helpers. -/
theorem http_error_read_propagates :
    test_gemini (.httpError 500 (.streamFail "UnicodeDecodeError: invalid start byte")) 7 =
        .error "UnicodeDecodeError: invalid start byte" ∧
      test_deepseek (.httpError 500 (.streamFail "UnicodeDecodeError: invalid start byte")) 7 =
        .error "UnicodeDecodeError: invalid start byte" :=
  ⟨rfl, rfl⟩

/-- C10 amended: on every outcome of the HTTP call except a failing
error-body read, `test_gemini` and `test_deepseek` return a record with a
`success` flag and the measured `latency`; on success `text` and `tokens` are
present; on an `HTTPError` whose body reads (or has no stream) the `error`
string embeds the HTTP status code.  On an `HTTPError` whose body read or
UTF-8 decode itself raises, the exception propagates to the caller. -/
theorem llm_helpers_branches (gb : GeminiBody) (db : DeepseekBody)
    (code : Nat) (s estr exc msg : String) (lat : Nat) :
    (test_gemini (.ok gb) lat =
      .ok { success := true, text := some (geminiText gb),
            tokens := some (gb.usageMetadata.getD []), latency := lat, raw_status := 200 }) ∧
    (test_gemini (.httpError code (.stream s)) lat =
      .ok { success := false, error := some ("HTTP " ++ toString code ++ ": " ++ s.take 500),
            latency := lat, raw_status := code }) ∧
    (test_gemini (.httpError code (.noStream estr)) lat =
      .ok { success := false, error := some ("HTTP " ++ toString code ++ ": " ++ estr.take 500),
            latency := lat, raw_status := code }) ∧
    (test_gemini (.httpError code (.streamFail exc)) lat = .error exc) ∧
    (test_gemini (.otherError msg) lat =
      .ok { success := false, error := some msg, latency := lat, raw_status := 0 }) ∧
    (test_deepseek (.ok db) lat =
      .ok { success := true, text := some (deepseekText db),
            tokens := some (db.usage.getD []), latency := lat, raw_status := 200 }) ∧
    (test_deepseek (.httpError code (.stream s)) lat =
      .ok { success := false, error := some ("HTTP " ++ toString code ++ ": " ++ s.take 500),
            latency := lat, raw_status := code }) ∧
    (test_deepseek (.httpError code (.noStream estr)) lat =
      .ok { success := false, error := some ("HTTP " ++ toString code ++ ": " ++ estr.take 500),
            latency := lat, raw_status := code }) ∧
    (test_deepseek (.httpError code (.streamFail exc)) lat = .error exc) ∧
    (test_deepseek (.otherError msg) lat =
      .ok { success := false, error := some msg, latency := lat, raw_status := 0 }) :=
  ⟨rfl, rfl, rfl, rfl, rfl, rfl, rfl, rfl, rfl, rfl⟩

end Harness
